import Mathlib

/-!
Verification of the OpenLEADR VEN client (`openleadr/client.py` and
`openleadr/service/event_service.py`) against its natural-language
specification.  The Python code is shallowly embedded: durations are
modelled as natural numbers of seconds, dictionaries as structures,
`find_by` as `List.find?` on the relevant field, Python exceptions as
`Except` errors, and the external collaborators (XML marshalling,
signing, the enum vocabularies, the HTTP transport, the cron scheduler)
as explicit parameters or abstract outcome types, exactly at the
boundary the code uses them.
-/

namespace OpenLEADR

/-! ## Data model (objects used by `client.py`) -/

/-- `objects.SamplingRate`: the `{min_period, max_period, on_change}` triple
attached to a report description.  Periods are in seconds. -/
structure SamplingRate where
  min_period : Nat
  max_period : Nat
  on_change : Bool
deriving Repr, DecidableEq

/-- `objects.Measurement`: the fields of a measurement that `client.py`
reads (`item_name`, `item_description`, `item_units`, `acceptable_units`,
`si_scale_code`).  `item_units` is optional because `add_report` can build a
custom measurement with `item_units=None`. -/
structure Measurement where
  item_name : String
  item_description : String
  item_units : Option String
  acceptable_units : List String
  si_scale_code : String
deriving Repr, DecidableEq

/-- `objects.ReportDescription`: one reportable data point.  The
application-supplied value producer (`callable`) is modelled as a string
key into a producer environment. -/
structure ReportDescription where
  r_id : String
  reading_type : String
  report_type : String
  sampling_rate : SamplingRate
  measurement : Measurement
  resource_id : String
  market_context : String
  callableKey : String
deriving Repr, DecidableEq

/-- `objects.Report` as held in `self.reports`: a locally defined report
capability with its descriptions. -/
structure Report where
  report_specifier_id : String
  report_name : String
  report_descriptions : List ReportDescription
deriving Repr, DecidableEq

/-- `find_by(report.report_descriptions, 'r_id', r_id)`: first description
whose `r_id` matches. -/
def findDescription (ds : List ReportDescription) (rid : String) :
    Option ReportDescription :=
  ds.find? (fun d => d.r_id == rid)

/-- `find_by(self.reports, 'report_specifier_id', sid)`: first report whose
`report_specifier_id` matches. -/
def findReport (rs : List Report) (sid : String) : Option Report :=
  rs.find? (fun r => r.report_specifier_id == sid)

/-! ## `create_report` (report negotiation, `client.py` lines 409-496) -/

/-- One entry of `report_request['report_specifier']['specifier_payloads']`:
the requested `r_id`, reading type and the (optional) measurement the VTN
asks for. -/
structure SpecifierPayload where
  r_id : String
  reading_type : String
  measurement : Option Measurement
deriving Repr, DecidableEq

/-- `report_request['report_specifier']`: the VTN's report specifier, with
an optional granularity (seconds). -/
structure ReportSpecifier where
  report_specifier_id : String
  granularity : Option Nat
  specifier_payloads : List SpecifierPayload
deriving Repr, DecidableEq

/-- The incoming `oadrReportRequest` dict handed to `create_report`. -/
structure IncomingReportRequest where
  report_request_id : String
  report_specifier : ReportSpecifier
deriving Repr, DecidableEq

/-- The measurement checks of `create_report` (lines 450-463): when the VTN
specifies a measurement, both its `item_description` and its `item_units`
must equal the descriptor's, otherwise the `r_id` is skipped (`continue`). -/
def measurementAccepted (p : SpecifierPayload) (rd : ReportDescription) : Bool :=
  match p.measurement with
  | none => true
  | some m =>
      m.item_description == rd.measurement.item_description
        && m.item_units == rd.measurement.item_units

/-- The `for specifier_payload in ...` loop of `create_report` (lines
434-486).  The `granularity` local variable is threaded through the loop
because the code mutates it: when no granularity was specified it is set to
the current descriptor's `max_period` (line 475) and stays set for the
remaining iterations.  Returns the final granularity and the accepted
`requested_r_ids`, in order. -/
def collectRequestedRIds (descs : List ReportDescription) :
    Option Nat → List SpecifierPayload → Option Nat × List String
  | g, [] => (g, [])
  | g, p :: rest =>
    match findDescription descs p.r_id with
    | none => collectRequestedRIds descs g rest
    | some rd =>
      if measurementAccepted p rd then
        match g with
        | some gval =>
          if rd.sampling_rate.min_period ≤ gval && gval ≤ rd.sampling_rate.max_period then
            let res := collectRequestedRIds descs (some gval) rest
            (res.1, p.r_id :: res.2)
          else
            collectRequestedRIds descs (some gval) rest
        | none =>
          let res := collectRequestedRIds descs (some rd.sampling_rate.max_period) rest
          (res.1, p.r_id :: res.2)
      else
        collectRequestedRIds descs g rest

/-- The entry appended to `self.report_requests` (lines 492-496).  `job`
records that `scheduler.add_job` was called for this request (line 489). -/
structure ReportRequestEntry where
  report_request_id : String
  report_specifier_id : String
  r_ids : List String
  granularity : Option Nat
  job : Bool
deriving Repr, DecidableEq

/-- `OpenADRClient.create_report` (lines 409-496): `none` models the
`return False` when no report with the requested specifier id exists (no
job is scheduled, nothing is appended); otherwise the r_id collection loop
runs and a job plus a `report_requests` entry are created unconditionally,
even when the accepted list is empty. -/
def createReport (reports : List Report) (rr : IncomingReportRequest) :
    Option ReportRequestEntry :=
  match findReport reports rr.report_specifier.report_specifier_id with
  | none => none
  | some report =>
      let res := collectRequestedRIds report.report_descriptions
        rr.report_specifier.granularity rr.report_specifier.specifier_payloads
      some { report_request_id := rr.report_request_id
             report_specifier_id := rr.report_specifier.report_specifier_id
             r_ids := res.2
             granularity := res.1
             job := true }

/-- Acceptance predicate for a payload when the VTN specified granularity
`g`: its descriptor exists, the measurement (when present) matches, and
`g` lies within the descriptor's sampling-rate range. -/
def acceptsAt (descs : List ReportDescription) (g : Nat)
    (p : SpecifierPayload) : Bool :=
  match findDescription descs p.r_id with
  | none => false
  | some rd =>
      measurementAccepted p rd
        && rd.sampling_rate.min_period ≤ g && g ≤ rd.sampling_rate.max_period

/-- The descriptor of the first payload that survives the existence and
measurement checks; when no granularity is specified, its `max_period`
becomes the delivery cadence. -/
def firstSurvivingDescriptor (descs : List ReportDescription) :
    List SpecifierPayload → Option ReportDescription
  | [] => none
  | p :: rest =>
    match findDescription descs p.r_id with
    | none => firstSurvivingDescriptor descs rest
    | some rd =>
      if measurementAccepted p rd then some rd
      else firstSurvivingDescriptor descs rest

/-! ## `_perform_request` (message transport, `client.py` lines 551-575) -/

/-- The error raised when `parse_message` fails to parse or validate the
signature of a reply.  `_perform_request` re-raises it (line 573). -/
inductive ParseError
  | malformed (content : String)
deriving Repr, DecidableEq

/-- The observable outcome of `client_session.post`: either a response with
an HTTP status and body, or a `ClientConnectorError`. -/
inductive HttpOutcome
  | response (status : Nat) (content : String)
  | connectError
deriving Repr, DecidableEq

/-- A parsed reply: message type and a flat field payload. -/
abbrev ParsedMessage := String × List (String × String)

/-- `OpenADRClient._perform_request` (lines 551-575), parameterised by the
external `parse_message` collaborator.  A non-200 status returns
`(None, {})` after a logged warning (lines 556-559); a connection error
returns `(None, {})` after a logged error (lines 562-566); a reply that
fails parsing/signature validation raises, modelled by `Except.error`
(lines 569-573, where the `raise err` makes the following
`return None, {}` dead code). -/
def performRequest (parse : String → Except ParseError ParsedMessage) :
    HttpOutcome → Except ParseError (Option String × List (String × String))
  | .response status content =>
    if status ≠ 200 then .ok (none, [])
    else
      match parse content with
      | .ok (t, p) => .ok (some t, p)
      | .error e => .error e
  | .connectError => .ok (none, [])

/-! ## `_poll` (poll loop, `client.py` lines 589-614) -/

/-- The reply observed by one `poll()` call: `noReply` is the `(None, {})`
result of an unreachable exchange, the other constructors are the reply's
`response_type`. -/
inductive VtnReply
  | noReply
  | oadrResponse
  | oadrRequestReregistration
  | oadrDistributeEvent
  | oadrUpdateReport
  | unknown (t : String)
deriving Repr, DecidableEq

/-- Observable effects of the poll loop: how many `poll()` exchanges were
performed and how often each handler was dispatched. -/
structure PollStats where
  polls : Nat
  eventsDispatched : Nat
  reportsDispatched : Nat
  reregistrations : Nat
deriving Repr, DecidableEq

/-- The handler dispatch inside `_poll` (lines 599-611): re-registration
triggers `create_party_registration`, `oadrDistributeEvent` dispatches
`_on_event` (which calls the application's event handler once, lines
577-587), `oadrUpdateReport` dispatches `_on_report`, and any other type is
logged and ignored. -/
def handleReply (s : PollStats) : VtnReply → PollStats
  | .oadrRequestReregistration => { s with reregistrations := s.reregistrations + 1 }
  | .oadrDistributeEvent => { s with eventsDispatched := s.eventsDispatched + 1 }
  | .oadrUpdateReport => { s with reportsDispatched := s.reportsDispatched + 1 }
  | _ => s

/-- `OpenADRClient._poll` (lines 589-614) over a finite script of replies,
one consumed per `poll()` exchange.  A `None` response type returns (line
592-593); an `oadrResponse` ("no events or reports available") returns
(lines 595-597); every other reply is handled and then `_poll` immediately
polls again (line 614).  An exhausted script behaves as an unreachable
server (`None` reply). -/
def pollLoop : List VtnReply → PollStats → PollStats
  | [], s => { s with polls := s.polls + 1 }
  | r :: rest, s =>
    let s1 : PollStats := { s with polls := s.polls + 1 }
    match r with
    | .noReply => s1
    | .oadrResponse => s1
    | r => pollLoop rest (handleReply s1 r)

/-! ## `create_party_registration` (`client.py` lines 292-338) -/

/-- The VEN identity state: `self.ven_id` and `self.poll_frequency`, both
`None` until a successful registration (lines 64-65).  The poll frequency
is in seconds. -/
structure VenIdentity where
  ven_id : Option String
  poll_frequency : Option Nat
deriving Repr, DecidableEq

/-- The payload of an `oadrCreatedPartyRegistration` reply, as read by
`create_party_registration`: the embedded response code/description, the
assigned `ven_id` and the optional `requested_oadr_poll_freq` (seconds). -/
structure RegistrationResponse where
  response_code : Nat
  response_description : String
  ven_id : String
  requested_oadr_poll_freq : Option Nat
deriving Repr, DecidableEq

/-- The state mutation of `OpenADRClient.create_party_registration` (lines
324-338): `none` models a `(None, {})` transport result (line 325-326,
state untouched); an embedded response code other than 200 is logged and
returns with the state untouched (lines 327-332); on success both
`ven_id` and `poll_frequency` are assigned, the latter defaulting to 10
seconds when the reply omits it (lines 333-335). -/
def createPartyRegistration (st : VenIdentity)
    (reply : Option RegistrationResponse) : VenIdentity :=
  match reply with
  | none => st
  | some r =>
    if r.response_code ≠ 200 then st
    else { ven_id := some r.ven_id
           poll_frequency := some (r.requested_oadr_poll_freq.getD 10) }

/-! ## `add_report` (report definition, `client.py` lines 156-259) -/

/-- The `sampling_rate` argument of `add_report`: `None`, a plain
`timedelta`, or an `objects.SamplingRate`. -/
inductive SamplingRateArg
  | unspecified
  | delta (seconds : Nat)
  | rate (sr : SamplingRate)
deriving Repr, DecidableEq

/-- The `measurement` argument of `add_report`: an `objects.Measurement`
or a string. -/
inductive MeasurementArg
  | meas (m : Measurement)
  | str (s : String)
deriving Repr, DecidableEq

/-- The keyword arguments of `add_report` that the embedded body reads. -/
structure AddReportArgs where
  callableKey : String
  resource_id : String
  measurement : MeasurementArg
  report_specifier_id : Option String
  report_name : String
  reading_type : String
  report_type : String
  sampling_rate : SamplingRateArg
  scale : String
  unit : Option String
deriving Repr, DecidableEq

/-- The error raised by the validation checks of `add_report` (a Python
`ValueError`), carrying the offending parameter's name. -/
inductive ValueErrorKind
  | badReportName
  | badReadingType
  | badReportType
  | badScale
deriving Repr, DecidableEq

/-- The external enum vocabularies (`enums.REPORT_NAME.values` and
friends) and the `enums.MEASUREMENTS` table, which are outside the core:
`add_report` only needs membership predicates and a lookup. -/
structure EnumTables where
  reportNames : String → Bool
  readingTypes : String → Bool
  reportTypes : String → Bool
  scaleCodes : String → Bool
  measurements : String → Option Measurement

/-- First-match in-place append used by `add_report` line 259: the found
report object's `report_descriptions` list is mutated; in the embedding
the first report satisfying the predicate gets the new description. -/
def appendDescription (p : Report → Bool) (d : ReportDescription) :
    List Report → List Report
  | [] => []
  | r :: rest =>
    if p r then { r with report_descriptions := r.report_descriptions ++ [d] } :: rest
    else r :: appendDescription p d rest

/-- `find_by(self.reports, 'report_name', n, 'report_specifier_id', sid)`
(lines 234-239): matches on `report_name` alone or on both fields. -/
def findReportForAdd (reports : List Report) (name : String)
    (sid : Option String) : Option Report :=
  match sid with
  | some s => reports.find? (fun r => r.report_name == name && r.report_specifier_id == s)
  | none => reports.find? (fun r => r.report_name == name)

/-- `OpenADRClient.add_report` (lines 156-259), parameterised by the enum
tables and by the ids that `generate_id()` would produce (`genRId` for the
description, `genSpecifierId` for a fresh report).  The validation block
(lines 186-201) raises `ValueError` for invalid vocabulary values; the
sampling-rate block (lines 203-210) defaults to `{min:10s, max:24h}` or
collapses a plain duration to `min=max` and performs no ordering check; the
measurement block (lines 212-222) resolves the measurement; the unit
compatibility check (lines 224-230) only logs; lines 233-259 find or
create the report keyed by `(report_name, report_specifier_id)` and append
the new description. -/
def addReport (tables : EnumTables) (reports : List Report)
    (args : AddReportArgs) (genSpecifierId genRId : String) :
    Except ValueErrorKind (List Report) :=
  if ¬ (tables.reportNames args.report_name || args.report_name.startsWith "x-") then
    .error .badReportName
  else if ¬ (tables.readingTypes args.reading_type || args.reading_type.startsWith "x-") then
    .error .badReadingType
  else if ¬ (tables.reportTypes args.report_type || args.report_type.startsWith "x-") then
    .error .badReportType
  else if ¬ tables.scaleCodes args.scale then
    .error .badScale
  else
    let sampling_rate : SamplingRate :=
      match args.sampling_rate with
      | .unspecified => { min_period := 10, max_period := 86400, on_change := false }
      | .delta d => { min_period := d, max_period := d, on_change := false }
      | .rate sr => sr
    let item_base : Measurement :=
      match args.measurement with
      | .meas m => m
      | .str s =>
        match tables.measurements s.toUpper with
        | some m => m
        | none =>
          { item_name := "customUnit", item_description := s,
            item_units := args.unit, acceptable_units := [], si_scale_code := "" }
    let item_base : Measurement := { item_base with si_scale_code := args.scale }
    let newDesc : ReportDescription :=
      { r_id := genRId
        reading_type := args.reading_type
        report_type := args.report_type
        sampling_rate := sampling_rate
        measurement := item_base
        resource_id := args.resource_id
        market_context := "Market01"
        callableKey := args.callableKey }
    match findReportForAdd reports args.report_name args.report_specifier_id with
    | some rpt =>
      .ok (appendDescription
        (fun r => r.report_name == rpt.report_name
          && r.report_specifier_id == rpt.report_specifier_id)
        newDesc reports)
    | none =>
      let rsid := args.report_specifier_id.getD genSpecifierId
      .ok (reports ++ [{ report_specifier_id := rsid
                         report_name := args.report_name
                         report_descriptions := [newDesc] }])

/-! ## `run` poll-cadence derivation (`client.py` lines 117-144) -/

/-- One cron field as built by `run`: a literal value, the `a/b` form
(start + step), or the `*/n` form. -/
inductive CronField
  | star
  | exact (n : Nat)
  | phased (start step : Nat)
  | everyStep (step : Nat)
deriving Repr, DecidableEq

/-- The observable outcome of the scheduling block of `run` for a
negotiated poll frequency: a cron job registered via `scheduler.add_job`,
a logged warning followed by `return` before any `add_job` call, or a
`NameError` because no branch assigned the cron variables. -/
inductive RunScheduleResult
  | scheduled (second minute hour : CronField)
  | warnedNoJob (second minute hour : CronField)
  | unboundCronError
deriving Repr, DecidableEq

/-- The poll-cadence derivation of `OpenADRClient.run` (lines 117-144),
with `offset` standing for the branch's `randint` draw and `f` the
negotiated poll frequency in seconds.  `f < 60` fires every `f` seconds
phase-shifted by `offset` (lines 118-122); `f < 3600` fires on a minute
boundary every `f/60` minutes (lines 123-126); `f < 86400` fires on the
hour every `f/3600` hours (lines 127-130); `f > 86400` logs the
clamp-to-24h warning, assigns the cron fields for midnight, and then
`return`s (line 137) before reaching `scheduler.add_job`; `f = 86400`
matches no branch, so line 139 reads the unassigned cron variables. -/
def runPollSchedule (offset : Nat) (f : Nat) : RunScheduleResult :=
  if f < 60 then .scheduled (.phased offset f) .star .star
  else if f < 3600 then .scheduled (.exact offset) (.everyStep (f / 60)) .star
  else if f < 86400 then .scheduled (.exact offset) (.exact 0) (.everyStep (f / 3600))
  else if f > 86400 then .warnedNoJob (.exact offset) (.exact 0) (.exact 0)
  else .unboundCronError

/-! ## `update_report` (report tick, `client.py` lines 498-519) -/

/-- Python exceptions that can escape the embedded client coroutines. -/
inductive PyError
  | nameError (n : String)
  | attributeError (n : String)
  | typeError (msg : String)
  | producerError (key : String)
deriving Repr, DecidableEq

/-- One `objects.ReportInterval` with its `objects.ReportPayload`
(lines 510-512). -/
structure ReportInterval where
  dtstart : Nat
  r_id : String
  value : Int
deriving Repr, DecidableEq

/-- The outbound `objects.Report` built at the end of `update_report`
(lines 515-518) and enqueued on `pending_reports` (line 519). -/
structure PendingReport where
  report_request_id : String
  report_specifier_id : String
  report_name : String
  intervals : List ReportInterval
deriving Repr, DecidableEq

/-- The `for r_id in report_request['r_ids']` loop of `update_report`
(lines 505-512).  Each iteration looks up the description and calls its
value producer; the call sits in no `try` block, so a raising producer
propagates and aborts the whole loop (modelled by `Except.error`), and a
missing description makes `None.callable` raise an `AttributeError`. -/
def collectIntervals (descs : List ReportDescription)
    (producers : String → Except Unit Int) (now : Nat) :
    List String → Except PyError (List ReportInterval)
  | [] => .ok []
  | rid :: rest =>
    match findDescription descs rid with
    | none => .error (.attributeError "callable")
    | some rd =>
      match producers rd.callableKey with
      | .error _ => .error (.producerError rd.callableKey)
      | .ok v =>
        match collectIntervals descs producers now rest with
        | .error e => .error e
        | .ok ivs => .ok ({ dtstart := now, r_id := rid, value := v } :: ivs)

/-- `OpenADRClient.update_report` (lines 498-519): find the report request
and its report, produce one interval per accepted `r_id`, and enqueue the
resulting report.  `Except.ok` is the `PendingReport` put on
`pending_reports`; `Except.error` means the scheduler tick raised and
nothing was enqueued. -/
def updateReport (reports : List Report)
    (reportRequests : List ReportRequestEntry)
    (producers : String → Except Unit Int) (now : Nat) (rrid : String) :
    Except PyError PendingReport :=
  match reportRequests.find? (fun r => r.report_request_id == rrid) with
  | none => .error (.typeError "NoneType is not subscriptable")
  | some rr =>
    match findReport reports rr.report_specifier_id with
    | none => .error (.attributeError "report_descriptions")
    | some report =>
      match collectIntervals report.report_descriptions producers now rr.r_ids with
      | .error e => .error e
      | .ok ivs =>
        .ok { report_request_id := rrid
              report_specifier_id := report.report_specifier_id
              report_name := report.report_name
              intervals := ivs }

/-! ## `cancel_report` and `_report_queue_worker` (`client.py` lines 521-543) -/

/-- The client state that a report cancellation would have to clean up:
the `report_requests` list, each entry carrying its scheduled job. -/
structure ClientReportState where
  report_requests : List ReportRequestEntry
deriving Repr, DecidableEq

/-- `OpenADRClient.cancel_report` (lines 521-524): the coroutine body is
only a docstring, so the state is returned unchanged — no job is
unscheduled and no `report_requests` entry is removed. -/
def cancelReport (st : ClientReportState) (payload : String) :
    ClientReportState :=
  st

/-- The acknowledgement payload a VTN returns for an `oadrUpdateReport`
delivery, possibly containing a `cancel_report` request. -/
structure UpdateReportAck where
  cancel_report : Option String
deriving Repr, DecidableEq

/-- The cancellation branch of `_report_queue_worker` (lines 542-543):
when the acknowledgement contains `cancel_report`, `self.cancel_report`
is awaited on it. -/
def reportQueueWorkerHandleAck (st : ClientReportState)
    (ack : UpdateReportAck) : ClientReportState :=
  match ack.cancel_report with
  | some p => cancelReport st p
  | none => st

/-! ## Default handlers (`service/event_service.py` and `_on_event`) -/

/-- The module-level names bound in `service/event_service.py`: the three
names of its first import, the `datetime` imports, `iscoroutine`,
`objects`, and the `EventService` class itself.  No `logger` is ever
bound in this module. -/
def eventServiceModuleGlobals : List String :=
  ["service", "handler", "VTNService", "datetime", "timedelta", "timezone",
   "iscoroutine", "objects", "EventService"]

/-- The methods defined by the `EventService` class body: the two
decorated handlers and the two placeholders.  Note the placeholder is
spelled `on_create_event` (line 65) while `created_event` calls
`self.on_created_event` (line 60). -/
def eventServiceClassMethods : List String :=
  ["request_event", "on_request_event", "created_event", "on_create_event"]

/-- The attributes an `OpenADRClient` instance has: everything `__init__`
assigns (lines 62-95) plus the methods of the class body.  No `on_event`
attribute is ever defined by the class. -/
def openADRClientAttributes : List String :=
  ["ven_name", "vtn_url", "ven_id", "poll_frequency", "debug", "reports",
   "report_requests", "pending_reports", "scheduler", "client_session",
   "report_queue_task", "_create_message", "_parse_message",
   "run", "stop", "add_report", "poll", "query_registration",
   "create_party_registration", "cancel_party_registration",
   "request_event", "created_event", "register_reports", "create_report",
   "update_report", "cancel_report", "_report_queue_worker",
   "_perform_request", "_on_event", "_poll"]

/-- Python global-name resolution inside a function body of
`event_service.py`: an unbound name raises `NameError`. -/
def lookupEventServiceGlobal (n : String) : Except PyError Unit :=
  if n ∈ eventServiceModuleGlobals then .ok () else .error (.nameError n)

/-- `EventService.on_request_event` (lines 45-53), the built-in default
invoked when the application registered no handler: its body executes
`logger.warning(...)` and then `return None`. -/
def onRequestEventDefault (venId : String) : Except PyError (Option Unit) :=
  match lookupEventServiceGlobal "logger" with
  | .error e => .error e
  | .ok _ => .ok none

/-- `EventService.on_create_event` (lines 65-73), the documented default
for the created-event path: its body executes `logger.warning(...)` and
then `return None`. -/
def onCreateEventDefault (payload : String) : Except PyError (Option Unit) :=
  match lookupEventServiceGlobal "logger" with
  | .error e => .error e
  | .ok _ => .ok none

/-- The `self.on_event(message)` attribute lookup performed by
`OpenADRClient._on_event` (line 579) when the application assigned no
handler: a missing attribute raises `AttributeError`. -/
def clientOnEventLookup : Except PyError Unit :=
  if "on_event" ∈ openADRClientAttributes then .ok ()
  else .error (.attributeError "on_event")

/-! ## Concrete scenario inputs used by the theorems below -/

/-- A canonical power measurement used by the negotiation scenarios. -/
def demoMeasurement : Measurement :=
  { item_name := "powerReal", item_description := "RealPower",
    item_units := some "W", acceptable_units := ["W"], si_scale_code := "none" }

/-- A measurement whose description and units differ from
`demoMeasurement`. -/
def otherMeasurement : Measurement :=
  { item_name := "voltage", item_description := "Voltage",
    item_units := some "V", acceptable_units := ["V"], si_scale_code := "none" }

/-- Descriptor `R1` with sampling-rate range `[1s, 60s]`. -/
def c1Descriptor : ReportDescription :=
  { r_id := "R1", reading_type := "Direct Read", report_type := "reading",
    sampling_rate := { min_period := 1, max_period := 60, on_change := false },
    measurement := demoMeasurement, resource_id := "Device1",
    market_context := "Market01", callableKey := "read_power" }

/-- A report `S1` offering descriptor `R1`. -/
def c1Report : Report :=
  { report_specifier_id := "S1", report_name := "TELEMETRY_USAGE",
    report_descriptions := [c1Descriptor] }

/-- A VTN request for `R1` with the in-range granularity 30s but a
mismatching measurement. -/
def c1MismatchRequest : IncomingReportRequest :=
  { report_request_id := "RR1",
    report_specifier :=
      { report_specifier_id := "S1", granularity := some 30,
        specifier_payloads :=
          [{ r_id := "R1", reading_type := "Direct Read",
             measurement := some otherMeasurement }] } }

/-- A VTN request for `R1` with granularity 30s and no measurement. -/
def c1OkRequest : IncomingReportRequest :=
  { report_request_id := "RR2",
    report_specifier :=
      { report_specifier_id := "S1", granularity := some 30,
        specifier_payloads :=
          [{ r_id := "R1", reading_type := "Direct Read",
             measurement := none }] } }

/-- A parser for the transport scenarios: `"valid"` parses to an
`oadrResponse`, anything else fails signature/structure validation. -/
def c2Parse (content : String) : Except ParseError ParsedMessage :=
  if content = "valid" then .ok ("oadrResponse", []) else .error (.malformed content)

/-- A prior successful registration state. -/
def c4PriorState : VenIdentity := { ven_id := some "VEN1", poll_frequency := some 30 }

/-- A registration reply with embedded response code 403. -/
def c4FailReply : RegistrationResponse :=
  { response_code := 403, response_description := "Forbidden",
    ven_id := "VEN2", requested_oadr_poll_freq := some 60 }

/-- A successful registration reply that omits the poll frequency. -/
def c4OkReply : RegistrationResponse :=
  { response_code := 200, response_description := "OK",
    ven_id := "VEN2", requested_oadr_poll_freq := none }

/-- Enum tables for the `add_report` scenario: every vocabulary check
passes and the measurement table has no entry, so a string measurement
becomes a custom measurement. -/
def c5Tables : EnumTables :=
  { reportNames := fun _ => true, readingTypes := fun _ => true,
    reportTypes := fun _ => true, scaleCodes := fun _ => true,
    measurements := fun _ => none }

/-- The inverted sampling rate `min_period = 20 > 5 = max_period`. -/
def c5InvertedRate : SamplingRate := { min_period := 20, max_period := 5, on_change := false }

/-- `add_report` arguments carrying the inverted sampling rate. -/
def c5Args : AddReportArgs :=
  { callableKey := "read_temp", resource_id := "Device1",
    measurement := .str "temperature", report_specifier_id := some "S5",
    report_name := "TELEMETRY_USAGE", reading_type := "Direct Read",
    report_type := "reading", sampling_rate := .rate c5InvertedRate,
    scale := "none", unit := some "C" }

/-- The report list stored by `add_report` on the inverted-rate call. -/
def c5StoredReports : List Report :=
  [{ report_specifier_id := "S5", report_name := "TELEMETRY_USAGE",
     report_descriptions :=
       [{ r_id := "GEN-R", reading_type := "Direct Read",
          report_type := "reading", sampling_rate := c5InvertedRate,
          measurement :=
            { item_name := "customUnit", item_description := "temperature",
              item_units := some "C", acceptable_units := [],
              si_scale_code := "none" },
          resource_id := "Device1", market_context := "Market01",
          callableKey := "read_temp" }] }]

/-- The single payload of the 5000-second negotiation scenario. -/
def c7Payload : SpecifierPayload :=
  { r_id := "R1", reading_type := "Direct Read", measurement := none }

/-- Descriptor `R1` with range `[1s, 60s]` for the 5000s scenario. -/
def c7Descriptor : ReportDescription :=
  { r_id := "R1", reading_type := "Direct Read", report_type := "reading",
    sampling_rate := { min_period := 1, max_period := 60, on_change := false },
    measurement := demoMeasurement, resource_id := "Device1",
    market_context := "Market01", callableKey := "read_power" }

/-- A report `S7` offering only `c7Descriptor`. -/
def c7Report : Report :=
  { report_specifier_id := "S7", report_name := "TELEMETRY_USAGE",
    report_descriptions := [c7Descriptor] }

/-- A VTN request with granularity 5000s, outside `[1s, 60s]`. -/
def c7Request : IncomingReportRequest :=
  { report_request_id := "RR7",
    report_specifier :=
      { report_specifier_id := "S7", granularity := some 5000,
        specifier_payloads := [c7Payload] } }

/-- Descriptor whose value producer is `c1` (the failing one below). -/
def c8DescR1 : ReportDescription :=
  { r_id := "R1", reading_type := "Direct Read", report_type := "reading",
    sampling_rate := { min_period := 1, max_period := 60, on_change := false },
    measurement := demoMeasurement, resource_id := "Device1",
    market_context := "Market01", callableKey := "c1" }

/-- Descriptor whose value producer is `c2` (always succeeding below). -/
def c8DescR2 : ReportDescription :=
  { r_id := "R2", reading_type := "Direct Read", report_type := "reading",
    sampling_rate := { min_period := 1, max_period := 60, on_change := false },
    measurement := otherMeasurement, resource_id := "Device2",
    market_context := "Market01", callableKey := "c2" }

/-- A report `S8` with the two descriptors. -/
def c8Report : Report :=
  { report_specifier_id := "S8", report_name := "TELEMETRY_USAGE",
    report_descriptions := [c8DescR1, c8DescR2] }

/-- A negotiated report request accepting both `R1` and `R2`. -/
def c8Request : ReportRequestEntry :=
  { report_request_id := "RR8", report_specifier_id := "S8",
    r_ids := ["R1", "R2"], granularity := some 10, job := true }

/-- Producers where `R1`'s callable raises and `R2`'s returns 42. -/
def c8FailingProducers (key : String) : Except Unit Int :=
  if key = "c1" then .error () else .ok 42

/-- Producers where both callables succeed. -/
def c8OkProducers (key : String) : Except Unit Int :=
  if key = "c1" then .ok 7 else .ok 42

/-- A live negotiated request with its scheduled job. -/
def c9Entry : ReportRequestEntry :=
  { report_request_id := "RR9", report_specifier_id := "S9",
    r_ids := ["R1"], granularity := some 10, job := true }

/-- Client state holding exactly that request. -/
def c9State : ClientReportState := { report_requests := [c9Entry] }

/-- A VTN acknowledgement requesting cancellation of `RR9`. -/
def c9Ack : UpdateReportAck := { cancel_report := some "RR9" }

/-! ## Helper lemmas -/

theorem collectRequestedRIds_some (descs : List ReportDescription) (g : Nat) :
    ∀ ps : List SpecifierPayload,
      collectRequestedRIds descs (some g) ps =
        (some g, (ps.filter (acceptsAt descs g)).map (fun p => p.r_id)) := by
  intro ps
  induction ps with
  | nil => rfl
  | cons p rest ih =>
      cases hfind : findDescription descs p.r_id with
      | none => simp [collectRequestedRIds, acceptsAt, hfind, ih]
      | some rd =>
          by_cases hm : measurementAccepted p rd
          · by_cases hr :
                (rd.sampling_rate.min_period ≤ g ∧ g ≤ rd.sampling_rate.max_period)
            · simp [collectRequestedRIds, acceptsAt, hfind, hm, hr.1, hr.2, ih]
            · have hr2 : ¬ (decide (rd.sampling_rate.min_period ≤ g)
                  && decide (g ≤ rd.sampling_rate.max_period)) = true := by
                simpa [Decidable.not_and_iff_or_not] using hr
              simp [collectRequestedRIds, acceptsAt, hfind, hm, hr2, ih]
          · simp [collectRequestedRIds, acceptsAt, hfind, hm, ih]

theorem collectRequestedRIds_none_granularity (descs : List ReportDescription) :
    ∀ ps : List SpecifierPayload,
      (collectRequestedRIds descs none ps).1 =
        (firstSurvivingDescriptor descs ps).map (fun rd => rd.sampling_rate.max_period) := by
  intro ps
  induction ps with
  | nil => rfl
  | cons p rest ih =>
      cases hfind : findDescription descs p.r_id with
      | none => simp [collectRequestedRIds, firstSurvivingDescriptor, hfind, ih]
      | some rd =>
          by_cases hm : measurementAccepted p rd
          · simp [collectRequestedRIds, firstSurvivingDescriptor, hfind, hm,
              collectRequestedRIds_some]
          · simp [collectRequestedRIds, firstSurvivingDescriptor, hfind, hm, ih]

/-! ## C1: granularity negotiation in `create_report` -/

/-- C1, counterexample to the claim as stated: the requested `r_id` `R1`
has an existing descriptor and the requested granularity 30s lies inside
its sampling-rate range `[1s, 60s]`, yet `R1` is not accepted into the
resulting `ReportRequest`, because the payload also carries a measurement
that does not match the descriptor's (lines 450-463 skip the `r_id`
before the granularity check is reached).  So "accepted iff
`min_period ≤ g ≤ max_period`" is false without a measurement-match
condition. -/
theorem create_report_granularity_iff_refuted :
    findDescription c1Report.report_descriptions "R1" = some c1Descriptor
    ∧ c1Descriptor.sampling_rate.min_period ≤ 30
    ∧ 30 ≤ c1Descriptor.sampling_rate.max_period
    ∧ c1MismatchRequest.report_specifier.granularity = some 30
    ∧ c1MismatchRequest.report_specifier.specifier_payloads.map (fun p => p.r_id) = ["R1"]
    ∧ createReport [c1Report] c1MismatchRequest =
        some { report_request_id := "RR1", report_specifier_id := "S1",
               r_ids := [], granularity := some 30, job := true } := by
  decide

/-- C1 (amended): during report negotiation, when the VTN specifies a
granularity `g`, the accepted `r_id` list is exactly the requested
payloads whose descriptor exists, whose specified measurement (if any)
matches the descriptor's, and whose descriptor range contains `g` — so
among payloads with existing descriptors and matching measurements, an
`r_id` is accepted iff `min_period ≤ g ≤ max_period`, each payload's fate
being independent of the others (the result is a pointwise filter).  When
the VTN specifies no granularity, the delivery cadence is the
`max_period` of the first payload's descriptor that survives the
existence and measurement checks. -/
theorem create_report_granularity_acceptance
    (reports : List Report) (rr : IncomingReportRequest) (report : Report)
    (hreport : findReport reports rr.report_specifier.report_specifier_id = some report) :
    (∀ g, rr.report_specifier.granularity = some g →
      createReport reports rr =
        some { report_request_id := rr.report_request_id
               report_specifier_id := rr.report_specifier.report_specifier_id
               r_ids := (rr.report_specifier.specifier_payloads.filter
                   (acceptsAt report.report_descriptions g)).map (fun p => p.r_id)
               granularity := some g
               job := true })
    ∧ (rr.report_specifier.granularity = none →
      ∃ e, createReport reports rr = some e ∧ e.job = true ∧
        e.granularity = (firstSurvivingDescriptor report.report_descriptions
            rr.report_specifier.specifier_payloads).map
            (fun rd => rd.sampling_rate.max_period)) := by
  constructor
  · intro g hg
    simp [createReport, hreport, hg, collectRequestedRIds_some]
  · intro hg
    refine ⟨{ report_request_id := rr.report_request_id
              report_specifier_id := rr.report_specifier.report_specifier_id
              r_ids := (collectRequestedRIds report.report_descriptions none
                  rr.report_specifier.specifier_payloads).2
              granularity := (collectRequestedRIds report.report_descriptions none
                  rr.report_specifier.specifier_payloads).1
              job := true }, ?_, rfl, ?_⟩
    · simp [createReport, hreport, hg]
    · simpa using collectRequestedRIds_none_granularity report.report_descriptions
        rr.report_specifier.specifier_payloads

/-- C1 witness: the amended theorem applied to the concrete request
`c1OkRequest` (granularity 30s, measurement omitted): `R1` is accepted. -/
theorem create_report_granularity_acceptance_witness :
    findReport [c1Report] c1OkRequest.report_specifier.report_specifier_id = some c1Report
    ∧ createReport [c1Report] c1OkRequest =
        some { report_request_id := "RR2", report_specifier_id := "S1",
               r_ids := (c1OkRequest.report_specifier.specifier_payloads.filter
                   (acceptsAt c1Report.report_descriptions 30)).map (fun p => p.r_id)
               granularity := some 30
               job := true } :=
  ⟨by decide,
   (create_report_granularity_acceptance [c1Report] c1OkRequest c1Report
      (by decide)).1 30 (by decide)⟩

/-! ## C7: an empty accepted set still yields a job and a request entry -/

/-- C7: when the requested report exists and the VTN specifies a
granularity that every existing descriptor's sampling-rate range
excludes, `create_report` still schedules a cadence job and appends a
`ReportRequest` entry whose accepted `r_id` list is empty (lines 488-496
run unconditionally after the loop). -/
theorem create_report_empty_accepted_still_scheduled
    (reports : List Report) (rr : IncomingReportRequest) (report : Report) (g : Nat)
    (hreport : findReport reports rr.report_specifier.report_specifier_id = some report)
    (hg : rr.report_specifier.granularity = some g)
    (hrej : ∀ p ∈ rr.report_specifier.specifier_payloads, ∀ rd,
      findDescription report.report_descriptions p.r_id = some rd →
      ¬ (rd.sampling_rate.min_period ≤ g ∧ g ≤ rd.sampling_rate.max_period)) :
    createReport reports rr =
      some { report_request_id := rr.report_request_id
             report_specifier_id := rr.report_specifier.report_specifier_id
             r_ids := []
             granularity := some g
             job := true } := by
  have hfilter : rr.report_specifier.specifier_payloads.filter
      (acceptsAt report.report_descriptions g) = [] := by
    rw [List.filter_eq_nil_iff]
    intro p hp
    cases hfind : findDescription report.report_descriptions p.r_id with
    | none => simp [acceptsAt, hfind]
    | some rd =>
        have := hrej p hp rd hfind
        have hr2 : ¬ (decide (rd.sampling_rate.min_period ≤ g)
            && decide (g ≤ rd.sampling_rate.max_period)) = true := by
          simpa [Decidable.not_and_iff_or_not] using this
        simp only [acceptsAt, hfind, Bool.and_assoc]
        intro hcontra
        exact hr2 (Bool.and_elim_right hcontra)
  simp [createReport, hreport, hg, collectRequestedRIds_some, hfilter]

/-- C7 witness: the end-to-end scenario of the spec — granularity 5000s
against the offered range `[1s, 60s]` yields a scheduled job and a
`ReportRequest` entry with an empty accepted list. -/
theorem create_report_empty_accepted_still_scheduled_witness :
    findReport [c7Report] c7Request.report_specifier.report_specifier_id = some c7Report
    ∧ createReport [c7Report] c7Request =
        some { report_request_id := "RR7", report_specifier_id := "S7",
               r_ids := [], granularity := some 5000, job := true } :=
  ⟨by decide,
   create_report_empty_accepted_still_scheduled [c7Report] c7Request c7Report 5000
     (by decide) (by decide)
     (by
       intro p hp rd hrd
       have hp2 : p = c7Payload := by
         simpa [c7Request] using hp
       subst hp2
       have h1 : findDescription c7Report.report_descriptions c7Payload.r_id =
           some c7Descriptor := by decide
       rw [h1] at hrd
       injection hrd with h2
       subst h2
       decide)⟩

/-! ## C2: `_perform_request` error taxonomy -/

/-- C2: for every service exchange, a non-200 HTTP status or a
connection-level failure makes `_perform_request` return the empty result
`(None, {})` without raising, while a 200 reply whose parsing or
signature validation fails raises the parse error to the caller — a hard
failure distinct from the unreachable cases. -/
theorem perform_request_error_taxonomy
    (parse : String → Except ParseError ParsedMessage)
    (status : Nat) (content : String) :
    (status ≠ 200 →
      performRequest parse (.response status content) = .ok (none, []))
    ∧ performRequest parse .connectError = .ok (none, [])
    ∧ (∀ e, status = 200 → parse content = .error e →
        performRequest parse (.response status content) = .error e)
    ∧ (∀ t p, status = 200 → parse content = .ok (t, p) →
        performRequest parse (.response status content) = .ok (some t, p)) := by
  refine ⟨?_, rfl, ?_, ?_⟩
  · intro h
    simp [performRequest, h]
  · intro e h hp
    simp [performRequest, h, hp]
  · intro t p h hp
    simp [performRequest, h, hp]

/-- C2 witness: with the concrete parser `c2Parse`, a 404 reply yields
`(None, {})` and a 200 reply with unparseable content raises
`Malformed`. -/
theorem perform_request_error_taxonomy_witness :
    ((404 : Nat) ≠ 200
      ∧ performRequest c2Parse (.response 404 "anything") = .ok (none, []))
    ∧ (c2Parse "junk" = Except.error (ParseError.malformed "junk")
      ∧ performRequest c2Parse (.response 200 "junk") = .error (.malformed "junk")) :=
  ⟨⟨by decide,
    (perform_request_error_taxonomy c2Parse 404 "anything").1 (by decide)⟩,
   ⟨by simp [c2Parse],
    (perform_request_error_taxonomy c2Parse 200 "junk").2.2.1
      (.malformed "junk") rfl (by simp [c2Parse])⟩⟩

/-! ## C3: the poll loop drains a scripted sequence of replies -/

/-- C3: for every finite scripted sequence of replies that ends in a
no-content `oadrResponse` and whose earlier entries are all handleable
(neither a transport failure nor a no-content reply), `_poll` handles
each entry and immediately polls again, then stops on the no-content
reply: exactly `length + 1` `poll()` exchanges happen, and each handler
is dispatched once per matching reply.  In particular, for the script
`[event, no-content]` the event handler runs exactly once and no poll
follows the no-content reply. -/
theorem poll_loop_drains_script (script : List VtnReply) (s : PollStats)
    (h : ∀ r ∈ script, r ≠ VtnReply.noReply ∧ r ≠ VtnReply.oadrResponse) :
    pollLoop (script ++ [VtnReply.oadrResponse]) s =
      { polls := s.polls + script.length + 1
        eventsDispatched := s.eventsDispatched
          + script.countP (fun r => r == VtnReply.oadrDistributeEvent)
        reportsDispatched := s.reportsDispatched
          + script.countP (fun r => r == VtnReply.oadrUpdateReport)
        reregistrations := s.reregistrations
          + script.countP (fun r => r == VtnReply.oadrRequestReregistration) } := by
  induction script generalizing s with
  | nil =>
      cases s
      simp [pollLoop]
  | cons r rest ih =>
      have hr := h r (by simp)
      have hrest : ∀ x ∈ rest, x ≠ VtnReply.noReply ∧ x ≠ VtnReply.oadrResponse :=
        fun x hx => h x (by simp [hx])
      cases r with
      | noReply => exact absurd rfl hr.1
      | oadrResponse => exact absurd rfl hr.2
      | oadrRequestReregistration =>
          cases s
          simp [pollLoop, handleReply, ih _ hrest, List.countP_cons]
          omega
      | oadrDistributeEvent =>
          cases s
          simp [pollLoop, handleReply, ih _ hrest, List.countP_cons]
          omega
      | oadrUpdateReport =>
          cases s
          simp [pollLoop, handleReply, ih _ hrest, List.countP_cons]
          omega
      | unknown t =>
          cases s
          simp [pollLoop, handleReply, ih _ hrest, List.countP_cons]
          omega

/-- C3 witness: the script `[event, no-content]` starting from zeroed
statistics dispatches the event handler exactly once, performs exactly
two polls (the event poll and the final no-content poll), and stops. -/
theorem poll_loop_drains_script_witness :
    (∀ r ∈ [VtnReply.oadrDistributeEvent],
      r ≠ VtnReply.noReply ∧ r ≠ VtnReply.oadrResponse)
    ∧ pollLoop [VtnReply.oadrDistributeEvent, VtnReply.oadrResponse]
        { polls := 0, eventsDispatched := 0, reportsDispatched := 0,
          reregistrations := 0 } =
      { polls := 2, eventsDispatched := 1, reportsDispatched := 0,
        reregistrations := 0 } :=
  ⟨by decide,
   poll_loop_drains_script [VtnReply.oadrDistributeEvent]
     { polls := 0, eventsDispatched := 0, reportsDispatched := 0,
       reregistrations := 0 }
     (by decide)⟩

/-! ## C4: atomic `VenIdentity` update in `create_party_registration` -/

/-- C4: `create_party_registration` updates the VEN identity atomically:
with no reply (`(None, {})` from the transport) or with an embedded
response code other than 200, both `ven_id` and `poll_frequency` are left
exactly as they were — whatever prior state they were in, including a
previously successful registration; on a 200 reply both are set together,
the poll frequency defaulting to 10 seconds when the reply omits it. -/
theorem create_party_registration_atomic (st : VenIdentity)
    (r : RegistrationResponse) :
    createPartyRegistration st none = st
    ∧ (r.response_code ≠ 200 → createPartyRegistration st (some r) = st)
    ∧ (r.response_code = 200 → createPartyRegistration st (some r) =
        { ven_id := some r.ven_id
          poll_frequency := some (r.requested_oadr_poll_freq.getD 10) }) := by
  refine ⟨rfl, ?_, ?_⟩
  · intro h
    simp [createPartyRegistration, h]
  · intro h
    simp [createPartyRegistration, h]

/-- C4 witness: from a previously registered state, a 403 reply leaves
both fields untouched, and a 200 reply omitting the poll frequency sets
the new id together with the default 10-second frequency. -/
theorem create_party_registration_atomic_witness :
    (c4FailReply.response_code ≠ 200
      ∧ createPartyRegistration c4PriorState (some c4FailReply) = c4PriorState)
    ∧ (c4OkReply.response_code = 200
      ∧ createPartyRegistration c4PriorState (some c4OkReply) =
          { ven_id := some "VEN2", poll_frequency := some 10 }) :=
  ⟨⟨by decide,
    (create_party_registration_atomic c4PriorState c4FailReply).2.1 (by decide)⟩,
   ⟨rfl,
    (create_party_registration_atomic c4PriorState c4OkReply).2.2 rfl⟩⟩

/-! ## C5: `add_report` does not enforce `min_period ≤ max_period` -/

/-- C5, evaluating the code at the failing input: `add_report` called
with the explicit sampling rate `{min: 20s, max: 5s}` succeeds and stores
a `ReportDescription` whose `min_period` exceeds its `max_period` — the
validation block of `add_report` (lines 186-210) checks the enum
vocabularies but never compares the two periods, so the documented
invariant `samplingRate.min ≤ samplingRate.max` is not enforced. -/
theorem add_report_accepts_inverted_sampling_rate :
    addReport c5Tables [] c5Args "GEN-S" "GEN-R" = .ok c5StoredReports
    ∧ c5InvertedRate.max_period < c5InvertedRate.min_period
    ∧ (c5StoredReports.map (fun r =>
        r.report_descriptions.map (fun d => d.sampling_rate))) = [[c5InvertedRate]] := by
  refine ⟨by rfl, by decide, by rfl⟩

/-! ## C6: `run` with a poll frequency of a day or more -/

/-- C6, evaluating the code on the claim's band: for every poll frequency
`f ≥ 86400` seconds the scheduling block of `run` never reaches
`scheduler.add_job` — for `f > 86400` it logs the clamp warning, assigns
the midnight cron fields, and then `return`s (line 137) without
scheduling, and for `f = 86400` no branch of the `if/elif` chain matches,
so line 139 raises on the unassigned cron variables.  The claimed
"still schedules the poll job clamped to once every 24 hours" never
happens. -/
theorem run_daily_poll_frequency_never_schedules (offset f : Nat)
    (hf : 86400 ≤ f) :
    (∀ sec minute hour, runPollSchedule offset f ≠ .scheduled sec minute hour)
    ∧ (86400 < f → runPollSchedule offset f =
        .warnedNoJob (.exact offset) (.exact 0) (.exact 0))
    ∧ (f = 86400 → runPollSchedule offset f = .unboundCronError) := by
  have h60 : ¬ f < 60 := by omega
  have h3600 : ¬ f < 3600 := by omega
  have h86400 : ¬ f < 86400 := by omega
  refine ⟨?_, ?_, ?_⟩
  · intro sec minute hour hcontra
    by_cases hgt : 86400 < f
    · simp [runPollSchedule, h60, h3600, h86400, hgt] at hcontra
    · simp [runPollSchedule, h60, h3600, h86400, hgt] at hcontra
  · intro hgt
    simp [runPollSchedule, h60, h3600, h86400, hgt]
  · intro heq
    subst heq
    rfl

/-- C6 witness: with a negotiated poll frequency of two days the warning
path is taken and no job is scheduled; at exactly one day the cron
variables are read unassigned. -/
theorem run_daily_poll_frequency_never_schedules_witness :
    ((86400 : Nat) ≤ 172800
      ∧ runPollSchedule 7 172800 = .warnedNoJob (.exact 7) (.exact 0) (.exact 0))
    ∧ ((86400 : Nat) ≤ 86400
      ∧ runPollSchedule 7 86400 = .unboundCronError) :=
  ⟨⟨by decide,
    (run_daily_poll_frequency_never_schedules 7 172800 (by decide)).2.1 (by decide)⟩,
   ⟨by decide,
    (run_daily_poll_frequency_never_schedules 7 86400 (by decide)).2.2 rfl⟩⟩

/-! ## C8: a failing value producer aborts the whole `update_report` tick -/

/-- C8, evaluating the code at the failing input: with two accepted
`r_id`s whose producers are `c1` (raising) and `c2` (returning 42), the
scheduler tick raises at `R1`'s producer call (line 507, which sits in no
`try` block), so no interval for `R2` is produced and no `PendingReport`
is enqueued — whereas the same tick with both producers succeeding
enqueues a report with both intervals.  The claimed per-`r_id` failure
isolation does not exist in the code. -/
theorem update_report_producer_failure_aborts_tick :
    updateReport [c8Report] [c8Request] c8FailingProducers 1000 "RR8" =
      .error (.producerError "c1")
    ∧ updateReport [c8Report] [c8Request] c8OkProducers 1000 "RR8" =
      .ok { report_request_id := "RR8", report_specifier_id := "S8",
            report_name := "TELEMETRY_USAGE",
            intervals := [{ dtstart := 1000, r_id := "R1", value := 7 },
                          { dtstart := 1000, r_id := "R2", value := 42 }] } := by
  refine ⟨by rfl, by rfl⟩

/-! ## C9: `cancel_report` removes neither the job nor the request -/

/-- C9, evaluating the code at the failing input: the body of
`cancel_report` is only a docstring, so when the VTN's acknowledgement of
a report delivery requests cancellation of `RR9`, the state after
`_report_queue_worker` invokes the handler still contains the `RR9`
`ReportRequest` entry and its scheduled job — nothing is removed,
contrary to the claimed contract. -/
theorem cancel_report_removes_nothing :
    reportQueueWorkerHandleAck c9State c9Ack = c9State
    ∧ c9Entry ∈ (reportQueueWorkerHandleAck c9State c9Ack).report_requests
    ∧ c9Entry.job = true := by
  refine ⟨rfl, by decide, rfl⟩

/-! ## C10: the built-in default handlers crash -/

/-- C10, evaluating the code at the failing inputs: invoking the built-in
defaults crashes instead of logging.  `EventService.on_request_event`
executes `logger.warning(...)` but `event_service.py` never binds a
module-level `logger`, so the call raises `NameError` instead of logging
and returning `None`; the documented created-event default
`on_create_event` has the same unbound `logger` (and `created_event`
calls it under the different name `on_created_event`, which the class
body never defines); and the client-side event path `_on_event` looks up
`self.on_event`, which `OpenADRClient` never defines, raising
`AttributeError` rather than falling back to any default. -/
theorem default_handlers_crash :
    onRequestEventDefault "VEN1" = .error (.nameError "logger")
    ∧ onCreateEventDefault "payload" = .error (.nameError "logger")
    ∧ "on_created_event" ∉ eventServiceClassMethods
    ∧ clientOnEventLookup = .error (.attributeError "on_event") := by
  refine ⟨by rfl, by rfl, by decide, by rfl⟩

end OpenLEADR
